import Mathlib

/-!
Shallow embedding of `causalimpact/main.py` (the single source file of the
repository) and proofs about the claims of its specification.

Conventions of the embedding:
* pandas cells are `Cell`: a numeric value (`ℚ`), a missing value `nan`
  (for which `np.isreal` is true and `isna` is true), or a non-numeric
  object `obj`;
* a pandas DataFrame is a `DFrame`: its cell matrix plus its index, which
  is either a `RangeIndex` of a given length or a `DatetimeIndex` given by
  its list of labels;
* a period element (`int` or `str` in Python) is `PElem`; Python
  truthiness of such a value is `PElem.truthy`;
* every `raise ValueError(...)` (and the `NameError` / `TypeError` /
  pandas indexing errors the source actually triggers) is a constructor of
  `CIErr`, and a fallible Python function becomes `Except CIErr _`.
-/

namespace CausalImpactPy

/-- A pandas cell: numeric value, NaN (missing), or a non-numeric object.
`np.isreal` is true for numbers and NaN, false for objects; `isna` is true
exactly for NaN. -/
inductive Cell where
  | num (q : ℚ)
  | nan
  | obj
deriving DecidableEq

def Cell.isreal : Cell → Bool
  | .obj => false
  | _ => true

def Cell.isna : Cell → Bool
  | .nan => true
  | _ => false

/-- The index of the input data: a `RangeIndex` (plain integer positions)
or a `DatetimeIndex` with the given ordered labels. -/
inductive DataIndex where
  | rangeIdx (n : Nat)
  | dateIdx (labels : List String)
deriving DecidableEq

/-- A pandas DataFrame: its cells (row major) and its index. -/
structure DFrame where
  cells : List (List Cell)
  index : DataIndex
deriving DecidableEq

/-- One element of a user-supplied period: a Python `int` or `str`. -/
inductive PElem where
  | pint (n : Int)
  | pstr (s : String)
deriving DecidableEq

/-- Python truthiness of a period element: `0` and `""` are falsy,
everything else is truthy. -/
def PElem.truthy : PElem → Bool
  | .pint n => n != 0
  | .pstr s => s != ""

def PElem.isInt : PElem → Bool
  | .pint _ => true
  | _ => false

def PElem.isStr : PElem → Bool
  | .pstr _ => true
  | _ => false

/-- The error conditions the source raises.  Each constructor corresponds
to one `raise` site (or an exception Python itself raises at a line of the
source). -/
inductive CIErr where
  /-- 'Input ``period`` must be of type `list`.' -/
  | periodNotList
  /-- '``period`` must have two values ...' -/
  | periodNotTwoValues
  /-- 'Input period cannot have `None` values' (line 453). -/
  | periodNoneValues
  /-- 'Input must contain either `int` or `str`' (line 458). -/
  | periodIntOrStr
  /-- 'If input ``period`` is string then input ``data`` must have index of
  type `DatetimeIndex`.' -/
  | periodNeedsDatetimeIndex
  /-- '``pre_period`` must span at least 3 time points' -/
  | periodTooShort
  /-- `NameError`: line 463 calls `self._convert_str_period_to_int(period, data)`
  but no name `data` is bound in `_process_period` (its parameter is
  `data_index`) nor at module level. -/
  | nameErrorData
  /-- `TypeError`: line 469 computes `period[1] - period[0]` with one `str`
  operand and one `int` operand. -/
  | typeErrorStrIntSub
  /-- '... is not preset in data index', naming the missing date. -/
  | dateNotPresent (date : String)
  /-- 'Values in training data cannot be present in the post-intervention data...' -/
  | periodOverlap
  /-- '``post_period`` last number must be bigger than its first.' -/
  | invalidPostPeriod
  /-- '``pre_period`` last number must be bigger than its first' (line 419;
  in the source this statement is itself a `SyntaxError` — a stray `.`
  before the closing parenthesis — modelled as the intended raise). -/
  | invalidPrePeriod
  /-- pandas `IndexingError`: lines 421-422 evaluate
  `data.iloc[pre_period[0], pre_period[1], :]` — three indexers on a
  2-dimensional frame ('Too many indexers'). -/
  | ilocTooManyIndexers
  /-- 'Input ``data`` is not valid. Cause of error: ...' -/
  | dataNotValid
  /-- 'Input ``data`` must contain only numeric values' -/
  | nonNumericData
  /-- 'Input data must have more than 3 points' -/
  | insufficientData
  /-- 'Input data cannot have NAN values' -/
  | allNanData
  /-- '``alpha`` must be of type `float`.' -/
  | alphaNotFloat
  /-- '``alpha`` must range between 0 (zero) and 1 (one) inclusive.' -/
  | alphaOutOfRange
  /-- 'Input ``model`` must be of type ``UnobservedComponentsModel``' -/
  | modelWrongType
  /-- 'Model must have attribute ...' (the `except AttributeError` branches),
  carrying the attribute name the message names. -/
  | modelMustHaveAttr (name : String)
  /-- 'Model must have `...` attribute set.' (the falsy-attribute branches),
  carrying the attribute name the message names. -/
  | modelMustHaveSet (name : String)
  /-- '... cannot be empty' raised by `_check_input_data` for `None`
  arguments, carrying the full message. -/
  | noneArgsEmpty (msg : String)
  /-- `NameError`: line 183 assigns `self.pre_data = normed_data` but the
  name bound at line 182 is `normed_pre_data`; `normed_data` is unbound. -/
  | nameErrorNormedData
  /-- `AttributeError`: line 248 calls `self._process_causal_kwargs`, a
  method defined nowhere in the class (the defined method is
  `_process_kwargs`). -/
  | attrErrorProcessCausalKwargs
deriving DecidableEq

/-- Embedding of `_convert_str_period_to_int(self, period, data)`
(lines 473-499): for each date in `period`, `data.index.get_loc(date)` is
the position of the date in the index; a `KeyError` becomes the
ValueError naming the date.  The second argument is the index's label
list. -/
def convert_str_period_to_int (period : List String) (index_labels : List String) :
    Except CIErr (List Int) :=
  period.mapM (fun date =>
    match index_labels.findIdx? (fun l => l = date) with
    | some offset => .ok (Int.ofNat offset)
    | none => .error (.dateNotPresent date))

/-- Embedding of `_process_period(self, period, data_index)`
(lines 426-471).  Faithful points worth noting:
* line 451 reads `none_args = [d for d in period if d]` — it collects the
  *truthy* elements of the period (not the `None` ones) and raises the
  "cannot have `None` values" error whenever that list is nonempty;
* the kind check at lines 454-458 tests `period[1]` twice in its second
  disjunct (`isinstance(period[1], str) and isinstance(period[1], str)`);
* line 463 calls `self._convert_str_period_to_int(period, data)` where the
  name `data` is unbound (`NameError`), so the string branch with a
  `DatetimeIndex` never reaches the conversion;
* line 469 computes `period[1] - period[0]`, a `TypeError` when exactly
  one of the two is a `str` that survived the kind check. -/
def process_period (period : List PElem) (data_index : DataIndex) :
    Except CIErr (Int × Int) :=
  match period with
  | [p0, p1] =>
    if ([p0, p1].filter PElem.truthy) ≠ [] then
      .error .periodNoneValues
    else if !((p0.isInt && p1.isInt) || (p1.isStr && p1.isStr)) then
      .error .periodIntOrStr
    else
      match p0, p1 with
      | .pstr _, _ =>
        match data_index with
        | .dateIdx _ => .error .nameErrorData
        | .rangeIdx _ => .error .periodNeedsDatetimeIndex
      | .pint _, .pstr _ => .error .typeErrorStrIntSub
      | .pint a, .pint b =>
        if b - a < 3 then .error .periodTooShort else .ok (a, b)
  | _ => .error .periodNotTwoValues

/-- Embedding of `_process_pre_post_data(self, data, pre_period, post_period)`
(lines 389-424): both periods are resolved by `_process_period`, then the
overlap and the two orientation checks run, then lines 421-422 slice with
`data.iloc[pre_period[0], pre_period[1], :]` — three indexers on a
2-dimensional frame, which pandas rejects ('Too many indexers'); that last
line is unreachable anyway because `_process_period` never returns. -/
def process_pre_post_data (data : DFrame) (pre_period post_period : List PElem) :
    Except CIErr (DFrame × DFrame) := do
  let pre ← process_period pre_period data.index
  let post ← process_period post_period data.index
  if pre.2 > post.1 then throw .periodOverlap
  else if post.2 < post.1 then throw .invalidPostPeriod
  else if pre.2 < pre.1 then throw .invalidPrePeriod
  else throw .ilocTooManyIndexers

/-- Number of columns of the cell matrix (`data.shape[1]`). -/
def shape1 (cells : List (List Cell)) : Nat := (cells.headD []).length

/-- Embedding of `_format_input_data(self, data)` (lines 351-387), on input
already coerced to a frame: the numeric check `data.applymap(np.isreal)`,
the `data.shape[0] < 3` check, and — only when `data.shape[1] > 1` — the
check `data.isna().values.all()`, which is true only when *every* cell of
the whole frame is missing. -/
def format_input_data (data : DFrame) : Except CIErr DFrame :=
  if !(data.cells.all (fun r => r.all Cell.isreal)) then
    .error .nonNumericData
  else if data.cells.length < 3 then
    .error .insufficientData
  else if 1 < shape1 data.cells then
    if data.cells.all (fun r => r.all Cell.isna) then .error .allNanData
    else .ok data
  else .ok data

/-- A Python number as passed for `alpha`: an `int` or a `float` (floats
modelled as rationals). -/
inductive PyNum where
  | int (n : Int)
  | float (q : ℚ)
deriving DecidableEq

/-- Embedding of `_process_alpha(self, alpha)` (lines 262-284): a non-float
fails the `isinstance(alpha, float)` check; a float fails only when
`alpha < 0 or alpha > 1` (the boundary values 0.0 and 1.0 pass, as the
message 'between 0 (zero) and 1 (one) inclusive' says).  The function body
has no `return` statement, so it yields `None` on success (`Unit` here). -/
def process_alpha : PyNum → Except CIErr Unit
  | .int _ => .error .alphaNotFloat
  | .float q => if q < 0 ∨ 1 < q then .error .alphaOutOfRange else .ok ()

/-- A Python attribute slot on the user model: absent (access raises
`AttributeError`), present but falsy, or present and truthy. -/
inductive PyAttr where
  | absent
  | falsy
  | truthy
deriving DecidableEq

/-- The three attributes `_process_input_model` inspects on a user model. -/
structure InputModel where
  level : PyAttr
  exog : PyAttr
  data : PyAttr
deriving DecidableEq

/-- The value passed as `model`: either not an `UnobservedComponentsModel`
at all, or one, described by its three inspected attributes. -/
inductive ModelVal where
  | notUCM
  | ucm (m : InputModel)
deriving DecidableEq

/-- Embedding of `_process_input_model(self, model)` (lines 286-323).  Each
attribute is read inside `try`: an absent attribute raises
`AttributeError`, caught and re-raised as 'Model must have attribute ...';
a present-but-falsy attribute raises 'Model must have `...` attribute
set.'.  Faithful point: the `except AttributeError` branch for `data`
(line 322) raises 'Model must have attribute exog' — it names `exog`,
not `data`. -/
def process_input_model (v : ModelVal) : Except CIErr InputModel :=
  match v with
  | .notUCM => .error .modelWrongType
  | .ucm m =>
    match m.level with
    | .absent => .error (.modelMustHaveAttr "level")
    | .falsy => .error (.modelMustHaveSet "level")
    | .truthy =>
      match m.exog with
      | .absent => .error (.modelMustHaveAttr "exog")
      | .falsy => .error (.modelMustHaveSet "exog")
      | .truthy =>
        match m.data with
        | .absent => .error (.modelMustHaveAttr "exog")
        | .falsy => .error (.modelMustHaveSet "data")
        | .truthy => .ok m

/-- The keyword arguments an `UnobservedComponentsModel` is constructed
with in `_construct_default_model`. -/
structure UCModelSpec where
  endog : List (List ℚ)
  exog : List ℚ
  level : String
deriving DecidableEq

/-- Embedding of `_construct_default_model(self)` (lines 199-209): the
constructor call is
`UnobservedComponentsModel(exog=self.pre_data[:, 0].values, level='llevel',
endog=self.pre_data[:, 1:].values)` — the keyword `exog` receives column 0
of the pre-period data and the keyword `endog` receives columns 1 onward.
(At runtime the line would in fact raise `NameError`, the module never
importing `UnobservedComponentsModel`; the embedding records the keyword
bindings as written.) -/
def construct_default_model (pre_data : List (List ℚ)) : UCModelSpec :=
  { exog := pre_data.map (fun r => r.headD 0)
    level := "llevel"
    endog := pre_data.map List.tail }

/-- Mean of a series. -/
def mean (xs : List ℚ) : ℚ := xs.sum / (xs.length : ℚ)

/-- Modelled from the spec: `standardize` is imported from
`causalimpact.misc`, a module of this repository that is not under `src/`.
Per spec §4.3, `fit` computes the per-column mean and standard deviation of
its input and `apply` is `(data - mu) / sigma`.  The standard deviation is
kept as a parameter `sd` (a square root in general leaves ℚ); theorems
constrain `sd` only at their concrete inputs.  The series is a single
column here (an `(mu, sig)` pair, as the source's `mu_sig` uses). -/
def standardize (sd : List ℚ → ℚ) (xs : List ℚ) : List ℚ × (ℚ × ℚ) :=
  let mu := mean xs
  let sig := sd xs
  (xs.map (fun x => (x - mu) / sig), (mu, sig))

/-- Embedding of `_standardize_pre_post_data(self)` (lines 177-185): line
182 binds `normed_pre_data, (mu, sig) = standardize(self.pre_data)`, but
line 183 then assigns `self.pre_data = normed_data` — the name
`normed_data` is unbound, so the method always raises `NameError` before
`self.post_data` or `self.mu_sig` is touched. -/
def standardize_pre_post_data (sd : List ℚ → ℚ) (pre_data post_data : List ℚ) :
    Except CIErr (List ℚ × List ℚ × (ℚ × ℚ)) :=
  let _r := standardize sd pre_data
  .error .nameErrorNormedData

/-- Embedding of `_process_posterior_inferences(self)` (lines 187-197): it
computes `standardize(self.pre_data)` and `standardize(self.post_data)` —
the second call derives its `(mu, sig)` from the *post*-period data
itself.  The function body ends there (it computes nothing else and
returns `None`); the embedding returns the two `standardize` results. -/
def process_posterior_inferences (sd : List ℚ → ℚ) (pre_data post_data : List ℚ) :
    (List ℚ × (ℚ × ℚ)) × (List ℚ × (ℚ × ℚ)) :=
  (standardize sd pre_data, standardize sd post_data)

/-- The constructor arguments scanned by `_check_input_data`; a `none`
models a Python `None`.  (`self` and `kwargs` also appear in `locals()`
but are never `None`.) -/
structure RawArgs where
  data : Option DFrame
  pre_period : Option (List PElem)
  post_period : Option (List PElem)
  model : Option ModelVal
  alpha : Option PyNum
deriving DecidableEq

/-- The names collected at lines 240-242: `input_args = locals().copy()`
holds `self, data, pre_period, post_period, model, alpha, kwargs` in
parameter order; `model` is popped before the scan, and `self` and
`kwargs` are never `None`, so the possible names, in order, are `data`,
`pre_period`, `post_period`, `alpha`. -/
def none_arg_names (a : RawArgs) : List String :=
  (if a.data.isNone then ["data"] else []) ++
  (if a.pre_period.isNone then ["pre_period"] else []) ++
  (if a.post_period.isNone then ["post_period"] else []) ++
  (if a.alpha.isNone then ["alpha"] else [])

/-- Embedding of `_check_input_data` (lines 211-260): the `None`-argument
scan runs first and raises '... cannot be empty' listing the `None`
argument names; only then do `_format_input_data` and
`_process_pre_post_data` run.  Line 248 then calls
`self._process_causal_kwargs(**kwargs)`, a method defined nowhere in
`main.py` (the defined method is `_process_kwargs`), an `AttributeError`;
the line is unreachable in any case because `_process_pre_post_data`
always raises, so the return dict of lines 251-260 is never built. -/
def check_input_data (a : RawArgs) : Except CIErr Unit :=
  if none_arg_names a ≠ [] then
    .error (.noneArgsEmpty
      (String.intercalate ", " (none_arg_names a) ++ " cannot be empty"))
  else do
    let processed ← format_input_data (a.data.getD ⟨[], .rangeIdx 0⟩)
    let _ ← process_pre_post_data processed (a.pre_period.getD [])
      (a.post_period.getD [])
    throw .attrErrorProcessCausalKwargs

/-- The branch taken by the `model` property setter (lines 170-175). -/
inductive ModelChoice where
  | defaultModel
  | userModel (m : ModelVal)
deriving DecidableEq

/-- Embedding of the `model` setter (lines 170-175): `None` selects the
`_construct_default_model()` branch, anything else is stored as given. -/
def model_setter : Option ModelVal → ModelChoice
  | none => .defaultModel
  | some m => .userModel m

/-! ## Sample inputs used by the theorems -/

/-- A 100-row, one-column frame with a plain `RangeIndex`, as in the
end-to-end scenario. -/
def df100 : DFrame :=
  { cells := (List.range 100).map (fun i => [Cell.num (i : ℚ)])
    index := .rangeIdx 100 }

/-- A small `DatetimeIndex`, given by its labels. -/
def demo_dates : List String :=
  ["2018-01-01", "2018-01-02", "2018-01-03", "2018-01-04", "2018-01-05"]

/-! ## Claim theorems -/

/-- C1: the claim says a two-element integer period with valid offsets and
span ≥ 3 resolves successfully to itself, in particular `[0, 70]` and
`[70, 100]` on a 100-point index.  The code disagrees: line 451 collects
the truthy elements of the period (`[d for d in period if d]`) and then
raises 'Input period cannot have `None` values' whenever that list is
nonempty, so `_process_period` rejects both periods of the end-to-end
scenario with an error about `None` values although no element is `None`. -/
theorem process_period_rejects_valid_int_periods :
    process_period [.pint 0, .pint 70] (.rangeIdx 100) = .error .periodNoneValues ∧
    process_period [.pint 70, .pint 100] (.rangeIdx 100) = .error .periodNoneValues := by
  constructor <;> rfl

/-- C2: the claim says the default model's endogenous series is column 0 of
the pre-period data and its exogenous regressors are columns 1 onward.
The code swaps them: `_construct_default_model` passes
`exog=self.pre_data[:, 0]` and `endog=self.pre_data[:, 1:]`.  On the
concrete pre-period matrix `[[1,10],[2,20],[3,30]]` (response 1,2,3;
covariate 10,20,30) the constructed spec has the covariate column as
`endog` and the response column as `exog`, while `level` is indeed
`llevel`. -/
theorem construct_default_model_swaps_endog_exog :
    (construct_default_model [[1, 10], [2, 20], [3, 30]]).endog = [[10], [20], [30]] ∧
    (construct_default_model [[1, 10], [2, 20], [3, 30]]).exog = [1, 2, 3] ∧
    (construct_default_model [[1, 10], [2, 20], [3, 30]]).level = "llevel" ∧
    (construct_default_model [[1, 10], [2, 20], [3, 30]]).endog ≠ [[1], [2], [3]] := by
  refine ⟨rfl, rfl, rfl, by decide⟩

/-- C7: the claim says that when covariate columns exist, a single covariate
column that is entirely missing fails with `AllMissingCovariate` even if
the other columns have values.  The code only raises when *every* cell of
the whole frame is missing (`data.isna().values.all()` with no axis): a
3×2 frame whose response column is `1,2,3` and whose covariate column is
all NaN is accepted unchanged, while the all-NaN frame is rejected. -/
theorem format_input_data_accepts_all_missing_covariate :
    format_input_data ⟨[[.num 1, .nan], [.num 2, .nan], [.num 3, .nan]], .rangeIdx 3⟩ =
      .ok ⟨[[.num 1, .nan], [.num 2, .nan], [.num 3, .nan]], .rangeIdx 3⟩ ∧
    format_input_data ⟨[[.nan, .nan], [.nan, .nan], [.nan, .nan]], .rangeIdx 3⟩ =
      .error .allNanData := by
  constructor <;> rfl

/-- C8: the claim says a period mixing one integer and one string is
rejected by the kind validation.  The code's kind check tests `period[1]`
twice in its string disjunct, so the mixed pair `[0, '']` (both elements
falsy, hence surviving the line-451 filter) passes the validation and the
function then crashes with a `TypeError` computing `'' - 0` at the span
check — not with the validation's ValueError.  The mirror pair `['', 0]`
is rejected by the kind check, and a mixed pair with a truthy element,
`[1, 'a']`, is rejected by the line-451 filter with the unrelated
'cannot have `None` values' error. -/
theorem process_period_mixed_kind_escapes_validation :
    process_period [.pint 0, .pstr ""] (.rangeIdx 100) = .error .typeErrorStrIntSub ∧
    process_period [.pstr "", .pint 0] (.rangeIdx 100) = .error .periodIntOrStr ∧
    process_period [.pint 1, .pstr "a"] (.rangeIdx 100) = .error .periodNoneValues := by
  refine ⟨rfl, rfl, rfl⟩

/-- C5: the claim says `[0,50]` vs `[40,70]` fails with `PeriodOverlap`
while the shared boundary `[0,70]` vs `[70,100]` passes the overlap check.
Neither reaches the overlap comparison: `_process_period` raises the
'cannot have `None` values' error on both pre-periods first (line 451
keeps truthy elements), so `_process_pre_post_data` fails identically on
the overlapping and on the boundary-sharing input, never distinguishing
them. -/
theorem process_pre_post_data_never_reaches_overlap_check :
    process_pre_post_data df100 [.pint 0, .pint 50] [.pint 40, .pint 70] =
      .error .periodNoneValues ∧
    process_pre_post_data df100 [.pint 0, .pint 70] [.pint 70, .pint 100] =
      .error .periodNoneValues := by
  constructor <;> rfl

/-- C6: the claim says a period of two date labels present in a
`DatetimeIndex` resolves to their integer offsets, and an absent label
fails naming that label.  End to end the code never resolves any label:
`_process_period` raises the 'cannot have `None` values' error on the
(truthy) strings first, and even past that, line 463 passes the unbound
name `data` to the converter.  The converter itself
(`_convert_str_period_to_int`) does behave as claimed when called
directly: present labels map to their offsets and an absent label raises
the error naming it. -/
theorem period_label_resolution_never_runs :
    process_period [.pstr "2018-01-01", .pstr "2018-01-05"] (.dateIdx demo_dates) =
      .error .periodNoneValues ∧
    convert_str_period_to_int ["2018-01-02", "2018-01-05"] demo_dates = .ok [1, 4] ∧
    convert_str_period_to_int ["2018-01-02", "2018-03-11"] demo_dates =
      .error (.dateNotPresent "2018-03-11") := by
  refine ⟨rfl, rfl, rfl⟩

/-- C9: the claim says a model missing only its `data` capability is
reported as missing `data`.  The code's `except AttributeError` branch for
`data` (line 322) raises 'Model must have attribute exog': a model with
`level` and `exog` set but no `data` attribute is reported as missing
`exog`, not `data`.  (A present-but-falsy `data` is reported correctly,
and the `level` and `exog` branches name their own attribute.) -/
theorem process_input_model_misnames_missing_data :
    process_input_model (.ucm ⟨.truthy, .truthy, .absent⟩) =
      .error (.modelMustHaveAttr "exog") ∧
    process_input_model (.ucm ⟨.truthy, .truthy, .absent⟩) ≠
      .error (.modelMustHaveAttr "data") ∧
    process_input_model (.ucm ⟨.absent, .truthy, .truthy⟩) =
      .error (.modelMustHaveAttr "level") ∧
    process_input_model (.ucm ⟨.truthy, .absent, .truthy⟩) =
      .error (.modelMustHaveAttr "exog") ∧
    process_input_model (.ucm ⟨.truthy, .truthy, .falsy⟩) =
      .error (.modelMustHaveSet "data") := by
  refine ⟨rfl, ?_, rfl, rfl, rfl⟩
  intro h
  exact absurd (Except.error.inj h) (by decide)

/-- Constructor arguments with a deliberately out-of-range `alpha` (5.0)
and everything else supplied: used to show the input-validation path never
raises an alpha error. -/
def args_bad_alpha : RawArgs :=
  { data := some df100
    pre_period := some [.pint 0, .pint 70]
    post_period := some [.pint 70, .pint 100]
    model := none
    alpha := some (.float 5) }

/-- Constructor arguments with `model = None` and every other argument
supplied. -/
def args_model_none : RawArgs :=
  { data := some ⟨[[.num 1], [.num 2], [.num 3]], .rangeIdx 3⟩
    pre_period := some [.pint 0, .pint 2]
    post_period := some [.pint 2, .pint 3]
    model := none
    alpha := some (.float (1 / 20)) }

/-- Constructor arguments with `data` and `alpha` both `None`. -/
def args_data_alpha_none : RawArgs :=
  { data := none
    pre_period := some [.pint 0, .pint 2]
    post_period := some [.pint 2, .pint 3]
    model := some (.ucm ⟨.truthy, .truthy, .truthy⟩)
    alpha := none }

/-- Constructor arguments whose `data` would fail the numeric check if it
were ever formatted, with `alpha = None`: used to show the `None` scan
fires before any data formatting. -/
def args_bad_data_alpha_none : RawArgs :=
  { data := some ⟨[[.obj]], .rangeIdx 1⟩
    pre_period := some [.pint 0, .pint 2]
    post_period := some [.pint 2, .pint 3]
    model := none
    alpha := none }

/-- C3 counterexample: the claim says `alpha = 0` and `alpha = 1` fail with
`InvalidAlpha` (open interval) and that the alpha check runs during input
validation.  `_process_alpha` accepts the boundary floats 0.0 and 1.0
(its test is `alpha < 0 or alpha > 1`), and `_check_input_data` never
calls it: with `alpha = 5.0` the constructor path fails on the period
bug, not on alpha. -/
theorem process_alpha_accepts_boundary :
    process_alpha (.float 0) = .ok () ∧
    process_alpha (.float 1) = .ok () ∧
    check_input_data args_bad_alpha = .error .periodNoneValues := by
  refine ⟨rfl, rfl, rfl⟩

/-- C3 amended: `_process_alpha` accepts exactly the floats of the closed
interval `[0, 1]` (so 0.05 succeeds and -0.1 and 1.5 fail, but the
boundaries 0.0 and 1.0 also succeed), rejects non-floats with a type
error, and is not invoked by `_check_input_data`. -/
theorem process_alpha_closed_interval (q : ℚ) (n : Int) :
    (0 ≤ q → q ≤ 1 → process_alpha (.float q) = .ok ()) ∧
    ((q < 0 ∨ 1 < q) → process_alpha (.float q) = .error .alphaOutOfRange) ∧
    process_alpha (.int n) = .error .alphaNotFloat := by
  refine ⟨?_, ?_, rfl⟩
  · intro h0 h1
    have hn : ¬(q < 0 ∨ 1 < q) := by push_neg; exact ⟨h0, h1⟩
    show (if q < 0 ∨ 1 < q then (.error .alphaOutOfRange : Except CIErr Unit)
      else .ok ()) = .ok ()
    rw [if_neg hn]
  · intro h
    show (if q < 0 ∨ 1 < q then (.error .alphaOutOfRange : Except CIErr Unit)
      else .ok ()) = .error .alphaOutOfRange
    rw [if_pos h]

theorem process_alpha_closed_interval_witness :
    process_alpha (.float (1 / 20)) = .ok () :=
  (process_alpha_closed_interval (1 / 20) 0).1 (by norm_num) (by norm_num)

/-- C4: the claim says standardization parameters always come from the
pre-period only, the same `(mu, sigma)` transforming both slices.  In
`_process_posterior_inferences` the call `standardize(self.post_data)`
derives the parameters of the post slice from the post-period data
itself: with pre = `[1, 3]` (mean 2) and post = `[9, 11]` (mean 10), and
any standard-deviation function giving 1 on both series (the true
population standard deviation does), the post slice comes out as
`[-1, 1]` — centred at the *post* mean — whereas the pre-period
parameters would give `[7, 9]`.  `_standardize_pre_post_data`, the one
method that would reuse the pre parameters, always raises `NameError`
(line 183 reads the unbound name `normed_data`). -/
theorem process_posterior_inferences_uses_post_params
    (sd : List ℚ → ℚ) (hpre : sd [1, 3] = 1) (hpost : sd [9, 11] = 1) :
    (process_posterior_inferences sd [1, 3] [9, 11]).2 = ([-1, 1], 10, 1) ∧
    ([9, 11] : List ℚ).map (fun x => (x - mean [1, 3]) / sd [1, 3]) = [7, 9] ∧
    standardize_pre_post_data sd [1, 3] [9, 11] = .error .nameErrorNormedData := by
  refine ⟨?_, ?_, rfl⟩
  · simp only [process_posterior_inferences, standardize, hpost]
    norm_num [mean]
  · rw [hpre]
    norm_num [mean]

theorem process_posterior_inferences_uses_post_params_witness :
    (process_posterior_inferences (fun _ => 1) [1, 3] [9, 11]).2 = ([-1, 1], 10, 1) :=
  (process_posterior_inferences_uses_post_params (fun _ => 1) rfl rfl).1

/-- C10: in `_check_input_data` the `None`-argument scan pops `model`
before scanning, so `model = None` is accepted there (and the `model`
property setter later selects the default-model branch), while any `None`
among `data`, `pre_period`, `post_period`, `alpha` raises the ValueError
listing exactly the `None` names; the scan runs first, before any data
formatting or period processing (a frame that would fail the numeric
check is never looked at when some argument is `None`). -/
theorem check_input_data_none_scan (a : RawArgs) (h : none_arg_names a ≠ []) :
    check_input_data a = .error (.noneArgsEmpty
      (String.intercalate ", " (none_arg_names a) ++ " cannot be empty")) ∧
    none_arg_names args_model_none = [] ∧
    check_input_data args_model_none = .error .periodNoneValues ∧
    none_arg_names args_data_alpha_none = ["data", "alpha"] ∧
    check_input_data args_data_alpha_none =
      .error (.noneArgsEmpty "data, alpha cannot be empty") ∧
    check_input_data args_bad_data_alpha_none =
      .error (.noneArgsEmpty "alpha cannot be empty") ∧
    model_setter none = .defaultModel := by
  refine ⟨?_, rfl, rfl, rfl, rfl, rfl, rfl⟩
  unfold check_input_data
  rw [if_pos h]

theorem check_input_data_none_scan_witness :
    check_input_data ⟨none, none, none, none, none⟩ =
      .error (.noneArgsEmpty (String.intercalate ", "
        (none_arg_names ⟨none, none, none, none, none⟩) ++ " cannot be empty")) :=
  (check_input_data_none_scan ⟨none, none, none, none, none⟩
    (by simp [none_arg_names])).1

end CausalImpactPy
